import Mathlib

/-
  Verification development for the InspireIt application (src/app.py).

  Modelling conventions:
  * Python strings are modelled as `List Char`; Lean string literals enter the
    model through `String.data`.
  * The Python `json` values are the inductive `Json` below.  Numbers keep their
    source lexeme (no code path in app.py inspects a numeric value), which
    sidesteps floating point while keeping the parser total on the JSON number
    grammar.
  * The Streamlit session state is an explicit record of `Option`-valued
    fields: `none` models an absent key, `some v` a key bound to `v`.
  * Backend effects (the Cortex search stored procedure and the completion
    stored procedure) are passed in as explicit arguments / `Except` results;
    an `Except.error` models the Python call raising, which app.py never
    catches around these calls.
-/

/-- JSON whitespace as accepted by the Python `json.loads` parser (space, tab,
newline, carriage return). -/
def isJsonWs (c : Char) : Bool :=
  c == ' ' || c == '\t' || c == '\n' || c == '\r'

/-- Drop leading JSON whitespace. -/
def skipWs : List Char → List Char
  | [] => []
  | c :: r => if isJsonWs c then skipWs r else c :: r

/-- Whitespace stripped by the Python `str.strip()` method (ASCII part: space, tab,
newline, carriage return, vertical tab, form feed, and the ASCII separator
controls; the rarely seen non-ASCII Unicode spaces are not modelled). -/
def isPyStripWs (c : Char) : Bool :=
  c == ' ' || c == '\t' || c == '\n' || c == '\r' || c == '\x0b' || c == '\x0c'
    || c == '\x1c' || c == '\x1d' || c == '\x1e' || c == '\x1f' || c == '\x85'

/-- Drop leading strip-whitespace. -/
def dropLeadingWs : List Char → List Char
  | [] => []
  | c :: r => if isPyStripWs c then dropLeadingWs r else c :: r

/-- Python `s.strip()`: remove leading and trailing whitespace. -/
def pyStrip (s : List Char) : List Char :=
  dropLeadingWs ((dropLeadingWs s.reverse).reverse)

/-- Does `s` start with `pat`? -/
def startsWith : List Char → List Char → Bool
  | [], _ => true
  | _ :: _, [] => false
  | p :: ps, c :: cs => p == c && startsWith ps cs

/-- Fuelled worker for `pyReplace`.  Every step consumes at least one
character of the subject string and one unit of fuel, so fuel equal to the
length of the subject (as supplied by `pyReplace`) never runs out. -/
def pyReplaceFuel (needle repl : List Char) : Nat → List Char → List Char
  | _, [] => []
  | 0, s => s
  | fuel + 1, c :: rest =>
    if startsWith needle (c :: rest) && !needle.isEmpty then
      repl ++ pyReplaceFuel needle repl fuel (List.drop (needle.length - 1) rest)
    else
      c :: pyReplaceFuel needle repl fuel rest

/-- Python `s.replace(needle, repl)`: replace every non-overlapping
occurrence, scanning left to right.  (app.py only ever replaces non-empty
needles; an empty needle is returned unchanged here, whereas Python would
intersperse `repl`.) -/
def pyReplace (needle repl s : List Char) : List Char :=
  pyReplaceFuel needle repl s.length s

/-- JSON values as produced by `json.loads`.  Object members are kept in
source order including duplicates; `jGet` below reproduces the
last-occurrence-wins dictionary semantics. -/
inductive Json where
  | null : Json
  | bool : Bool → Json
  | num : List Char → Json
  | str : List Char → Json
  | arr : List Json → Json
  | obj : List (List Char × Json) → Json

/-- Value of a hexadecimal digit. -/
def hexVal (c : Char) : Option Nat :=
  if c.isDigit then some (c.toNat - 48)
  else if 97 ≤ c.toNat ∧ c.toNat ≤ 102 then some (c.toNat - 87)
  else if 65 ≤ c.toNat ∧ c.toNat ≤ 70 then some (c.toNat - 55)
  else none

/-- Single-character JSON string escapes (quote, backslash, slash,
backspace, form feed, newline, carriage return, tab). -/
def escChar : Char → Option Char
  | '"' => some '"'
  | '\\' => some '\\'
  | '/' => some '/'
  | 'b' => some (Char.ofNat 8)
  | 'f' => some (Char.ofNat 12)
  | 'n' => some (Char.ofNat 10)
  | 'r' => some (Char.ofNat 13)
  | 't' => some (Char.ofNat 9)
  | _ => none

/-- Parse the body of a JSON string (the opening quote already consumed),
returning the decoded characters and the rest of the input.  Raw control
characters are rejected as in the Python strict mode.  `\uXXXX` escapes are
decoded as single code points (surrogate pairs, which a Lean `Char` cannot
hold, are not recombined). -/
def parseStrBody : List Char → Option (List Char × List Char)
  | [] => none
  | '"' :: r => some ([], r)
  | '\\' :: 'u' :: h1 :: h2 :: h3 :: h4 :: r =>
    match hexVal h1, hexVal h2, hexVal h3, hexVal h4 with
    | some a, some b, some c, some d =>
      (parseStrBody r).map
        (fun p => (Char.ofNat (((a * 16 + b) * 16 + c) * 16 + d) :: p.1, p.2))
    | _, _, _, _ => none
  | '\\' :: e :: r =>
    match escChar e with
    | some c => (parseStrBody r).map (fun p => (c :: p.1, p.2))
    | none => none
  | c :: r =>
    if c.toNat < 32 then none
    else (parseStrBody r).map (fun p => (c :: p.1, p.2))

/-- Split off a maximal run of leading decimal digits. -/
def takeDigits : List Char → List Char × List Char
  | [] => ([], [])
  | c :: r =>
    if c.isDigit then
      let p := takeDigits r
      (c :: p.1, p.2)
    else ([], c :: r)

/-- Integer part of a JSON number: `0` or a nonzero digit followed by
digits. -/
def parseIntPart : List Char → Option (List Char × List Char)
  | '0' :: r => some (['0'], r)
  | c :: r =>
    if c.isDigit then
      let p := takeDigits r
      some (c :: p.1, p.2)
    else none
  | [] => none

/-- Optional fractional part `.digits`. -/
def parseFracPart : List Char → Option (List Char × List Char)
  | '.' :: r =>
    match takeDigits r with
    | ([], _) => none
    | (ds, rest) => some ('.' :: ds, rest)
  | s => some ([], s)

/-- Optional exponent part `[eE][+-]?digits`. -/
def parseExpPart : List Char → Option (List Char × List Char)
  | [] => some ([], [])
  | c :: r =>
    if c == 'e' || c == 'E' then
      match r with
      | [] => none
      | s :: r2 =>
        if s == '+' || s == '-' then
          match takeDigits r2 with
          | ([], _) => none
          | (ds, rest) => some (c :: s :: ds, rest)
        else
          match takeDigits (s :: r2) with
          | ([], _) => none
          | (ds, rest) => some (c :: ds, rest)
    else some ([], c :: r)

/-- Lexeme of a JSON number without the sign. -/
def parseNumTail (r : List Char) : Option (List Char × List Char) :=
  match parseIntPart r with
  | none => none
  | some (ip, r1) =>
    match parseFracPart r1 with
    | none => none
    | some (fp, r2) =>
      match parseExpPart r2 with
      | none => none
      | some (ep, r3) => some (ip ++ fp ++ ep, r3)

/-- Lexeme of a JSON number; the Python scanner also accepts `-Infinity`
here. -/
def parseNumber : List Char → Option (List Char × List Char)
  | '-' :: r =>
    if startsWith ("Infinity".data) r then some ("-Infinity".data, List.drop 8 r)
    else (parseNumTail r).map (fun p => ('-' :: p.1, p.2))
  | s => parseNumTail s

/-- Parsing mode: a whole value, or the remaining items of an array or
object whose opening bracket (and any already-parsed items) have been
consumed. -/
inductive PMode where
  | value : PMode
  | arrItems : List Json → PMode
  | objItems : List (List Char × Json) → PMode

/-- Recursive-descent JSON parser, fuelled so that recursion is structural
(on the fuel) and kernel-reducible.  Returns the parsed value and the
unconsumed rest of the input. -/
def parseF : Nat → PMode → List Char → Option (Json × List Char)
  | 0, _, _ => none
  | fuel + 1, PMode.value, s =>
    match skipWs s with
    | [] => none
    | c :: r =>
      if c == '"' then (parseStrBody r).map (fun p => (Json.str p.1, p.2))
      else if c == Char.ofNat 123 then
        match skipWs r with
        | [] => none
        | c2 :: r2 =>
          if c2 == Char.ofNat 125 then some (Json.obj [], r2)
          else parseF fuel (PMode.objItems []) (c2 :: r2)
      else if c == '[' then
        match skipWs r with
        | [] => none
        | c2 :: r2 =>
          if c2 == ']' then some (Json.arr [], r2)
          else parseF fuel (PMode.arrItems []) (c2 :: r2)
      else if startsWith ("true".data) (c :: r) then some (Json.bool true, List.drop 3 r)
      else if startsWith ("false".data) (c :: r) then some (Json.bool false, List.drop 4 r)
      else if startsWith ("null".data) (c :: r) then some (Json.null, List.drop 3 r)
      else if startsWith ("NaN".data) (c :: r) then some (Json.num ("NaN".data), List.drop 2 r)
      else if startsWith ("Infinity".data) (c :: r) then
        some (Json.num ("Infinity".data), List.drop 7 r)
      else (parseNumber (c :: r)).map (fun p => (Json.num p.1, p.2))
  | fuel + 1, PMode.arrItems acc, s =>
    match parseF fuel PMode.value s with
    | none => none
    | some (v, r) =>
      match skipWs r with
      | [] => none
      | c :: r2 =>
        if c == ',' then parseF fuel (PMode.arrItems (acc ++ [v])) r2
        else if c == ']' then some (Json.arr (acc ++ [v]), r2)
        else none
  | fuel + 1, PMode.objItems acc, s =>
    match skipWs s with
    | [] => none
    | c :: r =>
      if c == '"' then
        match parseStrBody r with
        | none => none
        | some (k, r1) =>
          match skipWs r1 with
          | [] => none
          | c2 :: r2 =>
            if c2 == ':' then
              match parseF fuel PMode.value r2 with
              | none => none
              | some (v, r3) =>
                match skipWs r3 with
                | [] => none
                | c3 :: r4 =>
                  if c3 == ',' then parseF fuel (PMode.objItems (acc ++ [(k, v)])) r4
                  else if c3 == Char.ofNat 125 then some (Json.obj (acc ++ [(k, v)]), r4)
                  else none
            else none
      else none

/-- Python `json.loads`: parse one JSON document and require only
whitespace after it.  The fuel bound is generous: every unit of recursion
depth is paid for by input characters. -/
def jsonLoads (s : List Char) : Option Json :=
  match parseF (4 * s.length + 16) PMode.value s with
  | none => none
  | some (v, r) => if (skipWs r).isEmpty then some v else none

/-- Response cleaning shared by `generate_and_display_ideas`,
`generate_summaries_paper` and `final_paper_page` (src/app.py):
`response.strip().replace("```json", "").replace("```", "")`. -/
def cleanResponse (response : List Char) : List Char :=
  pyReplace ("```".data) [] (pyReplace ("```json".data) [] (pyStrip response))

/-- Dictionary lookup on parsed JSON object members: the last occurrence of
a duplicated key wins, as in a Python dict built by `json.loads`. -/
def jGet (kvs : List (List Char × Json)) (k : List Char) : Option Json :=
  match kvs with
  | [] => none
  | (k2, v) :: rest =>
    match jGet rest k with
    | some v2 => some v2
    | none => if k2 == k then some v else none

/-- Is `needle` a contiguous substring of `hay` (Python `in` on two
strings)? -/
def substrB (needle : List Char) : List Char → Bool
  | [] => startsWith needle []
  | c :: rest => startsWith needle (c :: rest) || substrB needle rest

/-- The Python expression `key in value` for a parsed JSON value: membership for a dict,
element equality for a list, substring test for a string; `none` models the
`TypeError` raised on the remaining types. -/
def pyContains (j : Json) (k : List Char) : Option Bool :=
  match j with
  | Json.obj kvs => some (kvs.any (fun kv => kv.1 == k))
  | Json.arr xs =>
    some (xs.any (fun x => match x with | Json.str s2 => s2 == k | _ => false))
  | Json.str s2 => some (substrB k s2)
  | _ => none

/-- The Python expression `value[k]` for a string key `k`: dict lookup; `none` models the
`TypeError` (or `KeyError`) raised when `value` is not a dict (or lacks the
key). -/
def pySubscript (j : Json) (k : List Char) : Option Json :=
  match j with
  | Json.obj kvs => jGet kvs k
  | _ => none

/-- Is the value a JSON object (a Python dict)? -/
def isObj : Json → Bool
  | Json.obj _ => true
  | _ => false

/-- Can the display loop of `generate_and_display_ideas` iterate the stored
ideas value without raising?  It runs `for i, idea in enumerate(v)` with
`idea.get(...)` on each element, so it needs a list of dicts. -/
def displayOk : Json → Bool
  | Json.arr xs => xs.all isObj
  | _ => false

/-- Outcome of the idea-generation parse-and-store stage. -/
inductive GenOutcome where
  /-- An exception was raised and caught by the surrounding
  `except Exception`; `st.error("Error generating ideas: ...")` is shown. -/
  | errorCaught : GenOutcome
  /-- The top-level `"ideas"` key test failed;
  `st.error("Invalid response format")` is shown and the function returns. -/
  | invalidFormat : GenOutcome
  /-- The ideas were stored and displayed. -/
  | success : GenOutcome
  deriving DecidableEq

/-- Parse-and-store stage of `generate_and_display_ideas`
(src/app.py lines 412-483).  `oldIdeas` is the prior
`st.session_state.ideas` value and `response` the raw completion output;
the backend calls that produce `response` are outside this stage.  Returns
the resulting `ideas` value and the visible outcome.  The rendering of a
well-formed batch (paper summaries etc.) is modelled as succeeding; its
backend sub-calls are out of scope here. -/
def generate_and_display_ideas (oldIdeas : Json) (response : List Char) :
    Json × GenOutcome :=
  match jsonLoads (cleanResponse response) with
  | none => (oldIdeas, GenOutcome.errorCaught)
  | some ideas_data =>
    match pyContains ideas_data ("ideas".data) with
    | none => (oldIdeas, GenOutcome.errorCaught)
    | some false => (oldIdeas, GenOutcome.invalidFormat)
    | some true =>
      match pySubscript ideas_data ("ideas".data) with
      | none => (oldIdeas, GenOutcome.errorCaught)
      | some v => (v, if displayOk v then GenOutcome.success else GenOutcome.errorCaught)

/-- Is a parsed JSON value iterable in Python (list, string or dict)? -/
def pyIterable : Json → Bool
  | Json.arr _ => true
  | Json.str _ => true
  | Json.obj _ => true
  | _ => false

/-- Outcome of the parse-and-render stage of `final_paper_page`. -/
inductive PaperOutcome where
  /-- Python `json.JSONDecodeError` was raised and caught;
  `st.error("Failed to generate paper details")` is shown. -/
  | parseError : PaperOutcome
  /-- The page rendered with the given abstract, references and
  opportunities values (defaults `""`, `[]`, `[]` when keys are absent). -/
  | rendered : Json → Json → Json → PaperOutcome
  /-- An exception other than `json.JSONDecodeError` escaped uncaught
  (e.g. `.get` on a non-dict, or iterating a non-iterable). -/
  | uncaught : PaperOutcome

/-- Parse-and-render stage of `final_paper_page` (src/app.py lines
545-573): clean the completion response, `json.loads` it, and render
`paper_details.get("abstract", "")`, `.get("references", [])`,
`.get("opportunities", [])`.  Only `json.JSONDecodeError` is caught. -/
def final_paper_parse (response : List Char) : PaperOutcome :=
  match jsonLoads (cleanResponse response) with
  | none => PaperOutcome.parseError
  | some (Json.obj kvs) =>
    if pyIterable ((jGet kvs ("references".data)).getD (Json.arr []))
        && pyIterable ((jGet kvs ("opportunities".data)).getD (Json.arr [])) then
      PaperOutcome.rendered ((jGet kvs ("abstract".data)).getD (Json.str []))
        ((jGet kvs ("references".data)).getD (Json.arr []))
        ((jGet kvs ("opportunities".data)).getD (Json.arr []))
    else PaperOutcome.uncaught
  | some _ => PaperOutcome.uncaught

/-- One chat message: a `{"role": ..., "content": ...}` dict. -/
structure ChatMsg where
  role : List Char
  content : List Char
  deriving DecidableEq

/-- Streamlit session state, restricted to the keys app.py manages.
`none` models an absent key, `some v` a key bound to `v`.  The Python
values `None` stored under `selected_idea` / `final_idea` appear as
`some none`. -/
structure SessionState where
  specifications : Option (List Char)
  generate_new : Option Bool
  page : Option (List Char)
  domain_inputs : Option (List (List Char))
  ideas : Option Json
  messages : Option (List ChatMsg)
  chat_history : Option (List ChatMsg)
  previous_prompt : Option (List Char)
  selected_idea : Option (Option Json)
  final_idea : Option (Option (List Char × List Char))
  navigating_to_final : Option Bool

/-- Model of `init_session_state` (src/app.py lines 24-48): each managed key is
seeded with its default only when absent. -/
def init_session_state (s : SessionState) : SessionState where
  specifications := some (s.specifications.getD [])
  generate_new := some (s.generate_new.getD false)
  page := some (s.page.getD ("home".data))
  domain_inputs := some (s.domain_inputs.getD [[]])
  ideas := some (s.ideas.getD (Json.arr []))
  messages := some (s.messages.getD [])
  chat_history := some (s.chat_history.getD [])
  previous_prompt := some (s.previous_prompt.getD [])
  selected_idea := some (s.selected_idea.getD none)
  final_idea := some (s.final_idea.getD none)
  navigating_to_final := some (s.navigating_to_final.getD false)

/-- The "Clear conversation" sidebar action (src/app.py lines 79-85,
inside `init_config_options`): reset `messages`, `ideas`, `domain_inputs`,
`chat_history` and go to the home page.  No other key is touched. -/
def clear_conversation (s : SessionState) : SessionState :=
  { s with messages := some [], ideas := some (Json.arr []),
           domain_inputs := some [[]], chat_history := some [],
           page := some ("home".data) }

/-- The three navigation actions offered by `home_page`. -/
inductive HomeAction where
  /-- The "Get Started" button. -/
  | getStarted : HomeAction
  /-- The "Analyze Now" button. -/
  | analyzeNow : HomeAction
  /-- The "Explore" button. -/
  | explore : HomeAction

/-- Model of `home_page` (src/app.py lines 329-372): state mutation performed by
each navigation button. -/
def home_page (s : SessionState) : HomeAction → SessionState
  | HomeAction.getStarted => { s with page := some ("get_idea".data) }
  | HomeAction.analyzeNow =>
    { s with selected_idea := some none, page := some ("review_idea".data) }
  | HomeAction.explore => { s with page := some ("explore".data) }

/-- Does `review_idea_page` (src/app.py line 494) pre-fill from a stored
idea?  The gate is Python truthiness of `st.session_state.selected_idea`,
which by this code is either `None` or an idea dict; `None` and an empty
dict are falsy. -/
def review_prefill_gate (s : SessionState) : Bool :=
  match s.selected_idea with
  | some (some (Json.obj kvs)) => !kvs.isEmpty
  | _ => false

/-- Possible results of the generation trigger in `get_idea_page`. -/
inductive GetIdeaAction where
  /-- The code calls `generate_and_display_ideas`. -/
  | generate : GetIdeaAction
  /-- Warning that at least one domain and specifications are required. -/
  | warnEmpty : GetIdeaAction
  /-- Neither branch: nothing happens on this render. -/
  | noAction : GetIdeaAction
  deriving DecidableEq

/-- Generation trigger of `get_idea_page` (src/app.py lines 398-402):
`if st.button("Generate Ideas") or not st.session_state.get("generate_new",
False):` then `if any(st.session_state.domain_inputs) and specifications:`.
Python truthiness of a string is non-emptiness. -/
def get_idea_generation (buttonPressed generate_new : Bool)
    (domain_inputs : List (List Char)) (specifications : List Char) :
    GetIdeaAction :=
  if buttonPressed || !generate_new then
    if domain_inputs.any (fun d => !d.isEmpty) && !specifications.isEmpty then
      GetIdeaAction.generate
    else GetIdeaAction.warnEmpty
  else GetIdeaAction.noAction

/-- Post-processing applied by `complete` (src/app.py line 148) to the
completion backend result: `result.replace("$", "\$")`. -/
def complete_post (raw : List Char) : List Char :=
  pyReplace ("$".data) ("\\$".data) raw

/-- Literal chunk of the `explore_page` prompt template before the
context. -/
def explorePromptPre : List Char :=
  "\n        [INST]\n        Consider this context:\n        ".data

/-- Literal chunk of the `explore_page` prompt template between context
and user question. -/
def explorePromptMid : List Char :=
  "\n        \n        User question: ".data

/-- Literal chunk of the `explore_page` prompt template after the user
question. -/
def explorePromptPost : List Char :=
  "\n        \n        Provide a helpful and informative response.\n        [/INST]\n        ".data

/-- The literal `full_prompt` f-string of `explore_page` (src/app.py lines
600-609). -/
def explore_full_prompt (context_str prompt : List Char) : List Char :=
  explorePromptPre ++ context_str ++ explorePromptMid ++ prompt ++ explorePromptPost

/-- How a single chat turn of `explore_page` ends. -/
inductive TurnResult where
  /-- Both backend calls returned; the turn completed. -/
  | ok : TurnResult
  /-- The retrieval call raised; the script run aborts (uncaught). -/
  | retrievalFailed : TurnResult
  /-- The completion call raised; the script run aborts (uncaught). -/
  | completionFailed : TurnResult
  deriving DecidableEq

/-- One chat turn of `explore_page` (src/app.py lines 589-614) after the
user submits `prompt`.  The user message is appended to `chat_history`
first; then retrieval runs, then completion on the built prompt (whose raw
result gets the `$`-escaping of `complete`); each backend call is modelled as an
`Except` and its failure aborts the turn with no further state change.
Returns the new `chat_history` and how the turn ended. -/
def explore_turn (history : List ChatMsg) (prompt : List Char)
    (retrieval : Except Unit (List Char))
    (completionBackend : List Char → Except Unit (List Char)) :
    List ChatMsg × TurnResult :=
  let h1 := history ++ [⟨"user".data, prompt⟩]
  match retrieval with
  | Except.error _ => (h1, TurnResult.retrievalFailed)
  | Except.ok context_str =>
    match completionBackend (explore_full_prompt context_str prompt) with
    | Except.error _ => (h1, TurnResult.completionFailed)
    | Except.ok raw =>
      (h1 ++ [⟨"assistant".data, complete_post raw⟩], TurnResult.ok)

/-- Python `sep.join(parts)`. -/
def pyJoin (sep : List Char) : List (List Char) → List Char
  | [] => []
  | [x] => x
  | x :: y :: rest => x ++ sep ++ pyJoin sep (y :: rest)

/-- Contiguous-substring predicate used to state the prompt-embedding
property. -/
def substrOf (needle hay : List Char) : Prop :=
  ∃ s t, hay = s ++ needle ++ t

/-- Literal chunk of the `generate_idea_prompt` template before the joined
domains. -/
def ideaPromptPre : List Char :=
  "\n    [INST]\n    As an AI research consultant, generate creative research ideas based on the following:\n    \n    Domains: ".data

/-- Literal chunk of the `generate_idea_prompt` template between domains
and specifications. -/
def ideaPromptMid1 : List Char :=
  "\n    User Specifications: ".data

/-- Literal chunk of the `generate_idea_prompt` template between
specifications and context. -/
def ideaPromptMid2 : List Char :=
  "\n    \n    Consider this relevant context:\n    ".data

/-- Literal chunk of the `generate_idea_prompt` template after the
context (the JSON-schema instructions; `\x7b` and `\x7d` are the literal
braces that the Python f-string writes as doubled braces). -/
def ideaPromptPost : List Char :=
  "\n    \n    Provide your response in JSON format with the following structure:\n    \x7b\n        \"ideas\": [\n            \x7b\n                \"title\": \"Idea title\",\n                \"description\": \"Very lengthy description\",\n                \"opportunities\": [\"opp1\", \"opp2\", ...],\n                \"drawbacks\": [\"drawback1\", \"drawback2\", ...],\n                \"references\": [\"ref1\", \"ref2\", ...],\n                \"\"\n            \x7d\n        ]\n    \x7d\n    \n    Generate 3 innovative ideas that combine elements from the specified domains.\n    Include URLs for reference papers where available from the context.\n    [/INST]\n    ".data

/-- Model of `generate_idea_prompt` (src/app.py lines 152-187).  The retrieval call
that produces `context_str` is passed in as an argument; the returned
f-string embeds the comma-join of `domains`, `specifications` and
`context_str`. -/
def generate_idea_prompt (domains : List (List Char)) (specifications : List Char)
    (context_str : List Char) : List Char :=
  ideaPromptPre ++ pyJoin (", ".data) domains ++ ideaPromptMid1 ++ specifications
    ++ ideaPromptMid2 ++ context_str ++ ideaPromptPost

/-- Request parameters built by `query_cortex_search_service`
(src/app.py lines 107-119): `json.dumps({"query": query, "service_name":
..., "num_chunks": ...})` handed to `CALL CORTEX_SEARCH_PROC(%s)`.  The
`columns` and `filter` parameters of the Python function are accepted here
exactly as in the source — and, exactly as in the source, never used. -/
def cortex_search_request (query service_name : List Char) (num_chunks : Nat)
    (columns : List (List Char)) (filter : Json) : Json :=
  Json.obj [("query".data, Json.str query),
            ("service_name".data, Json.str service_name),
            ("num_chunks".data, Json.num ((Nat.repr num_chunks).data))]

/-- Keys of a JSON object, in order. -/
def objKeys : Json → List (List Char)
  | Json.obj kvs => kvs.map (fun kv => kv.1)
  | _ => []

/-- The filter every caller in app.py passes:
`{"@and": [{"@eq": {"language": "English"}}]}`. -/
def english_filter : Json :=
  Json.obj [("@and".data, Json.arr [Json.obj [("@eq".data,
    Json.obj [("language".data, Json.str ("English".data))])]])]

/-- The concrete completion response of the parsing test case. -/
def c7_input : List Char :=
  "```json\n\x7b\"ideas\":[\x7b\"title\":\"A\",\"description\":\"B\",\"opportunities\":[],\"drawbacks\":[],\"references\":[]\x7d]\x7d\n```".data

/-- Every element of a joined list is a contiguous substring of the
join. -/
theorem substr_pyJoin (sep : List Char) :
    ∀ (l : List (List Char)) (d : List Char), d ∈ l → substrOf d (pyJoin sep l)
  | [], d, h => absurd h (List.not_mem_nil d)
  | [x], d, h => by
    rcases List.mem_singleton.mp h with rfl
    exact ⟨[], [], by simp [pyJoin]⟩
  | x :: y :: rest, d, h => by
    rcases List.mem_cons.mp h with rfl | hmem
    · exact ⟨[], sep ++ pyJoin sep (y :: rest), by simp [pyJoin, List.append_assoc]⟩
    · obtain ⟨s, t, hst⟩ := substr_pyJoin sep (y :: rest) d hmem
      exact ⟨x ++ sep ++ s, t, by simp [pyJoin, hst, List.append_assoc]⟩

/-- C6: for every non-empty list of domain strings and non-empty
specifications string, the prompt built by `generate_idea_prompt` contains
each domain string verbatim and the specifications string verbatim as
contiguous substrings. -/
theorem generate_idea_prompt_embeds_inputs (domains : List (List Char))
    (specifications context_str : List Char)
    (_hdom : domains ≠ []) (_hspec : specifications ≠ []) :
    (∀ d ∈ domains, substrOf d (generate_idea_prompt domains specifications context_str)) ∧
    substrOf specifications (generate_idea_prompt domains specifications context_str) := by
  constructor
  · intro d hd
    obtain ⟨s, t, hst⟩ := substr_pyJoin (", ".data) domains d hd
    exact ⟨ideaPromptPre ++ s,
      t ++ ideaPromptMid1 ++ specifications ++ ideaPromptMid2 ++ context_str ++ ideaPromptPost,
      by simp [generate_idea_prompt, hst, List.append_assoc]⟩
  · exact ⟨ideaPromptPre ++ pyJoin (", ".data) domains ++ ideaPromptMid1,
      ideaPromptMid2 ++ context_str ++ ideaPromptPost,
      by simp [generate_idea_prompt, List.append_assoc]⟩

/-- Witness for C6 at a concrete input. -/
theorem generate_idea_prompt_embeds_inputs_witness :
    substrOf ("AI".data) (generate_idea_prompt [("AI".data)] ("specs".data) []) ∧
    substrOf ("specs".data) (generate_idea_prompt [("AI".data)] ("specs".data) []) := by
  have h := generate_idea_prompt_embeds_inputs [("AI".data)] ("specs".data) []
    (by decide) (by decide)
  exact ⟨h.1 ("AI".data) (List.mem_singleton.mpr rfl), h.2⟩

/-- C3: running `init_session_state` twice in a row yields exactly the same
session state as running it once — each managed key is seeded only when
absent and an existing value is left untouched. -/
theorem init_session_state_idempotent (s : SessionState) :
    init_session_state (init_session_state s) = init_session_state s := by
  simp [init_session_state]

/-- C7: parsing the concrete fenced completion response through the
`generate_and_display_ideas` pipeline (strip, fence removal, JSON decode,
key check, store) yields exactly one idea with title "A", description "B"
and empty opportunities, drawbacks and references, whatever ideas were
stored before. -/
theorem parse_ideas_concrete_example (oldIdeas : Json) :
    generate_and_display_ideas oldIdeas c7_input =
      (Json.arr [Json.obj
        [("title".data, Json.str ("A".data)),
         ("description".data, Json.str ("B".data)),
         ("opportunities".data, Json.arr []),
         ("drawbacks".data, Json.arr []),
         ("references".data, Json.arr [])]], GenOutcome.success) := rfl

/-- C2 counterexample: the completion response consisting of an empty JSON
object is well-formed but lacks the expected top-level key, yet
`final_paper_page` does not report a parse error — it renders the page
with empty defaults. -/
theorem final_paper_missing_key_renders_defaults :
    jsonLoads (cleanResponse ("\x7b\x7d".data)) = some (Json.obj []) ∧
    final_paper_parse ("\x7b\x7d".data)
      = PaperOutcome.rendered (Json.str []) (Json.arr []) (Json.arr []) ∧
    final_paper_parse ("\x7b\x7d".data) ≠ PaperOutcome.parseError := by
  refine ⟨rfl, rfl, ?_⟩
  intro hx
  have hr : final_paper_parse ("\x7b\x7d".data)
      = PaperOutcome.rendered (Json.str []) (Json.arr []) (Json.arr []) := rfl
  rw [hr] at hx
  cases hx

/-- C2 (amended): in idea generation, a completion response whose cleaned
form is not well-formed JSON or lacks the top-level "ideas" key leaves the
stored ideas unchanged and never counts as success (the whole batch is
discarded and a failure message shown); in final-paper rendering a response
that is not well-formed JSON reports the failure message.  (A well-formed
final-paper response lacking its expected keys is rendered with empty
defaults instead of an error; see the counterexample.) -/
theorem parse_failure_keeps_ideas (oldIdeas : Json) (response : List Char)
    (h : ∀ j, jsonLoads (cleanResponse response) = some j →
      pyContains j ("ideas".data) ≠ some true) :
    (generate_and_display_ideas oldIdeas response).1 = oldIdeas ∧
    (generate_and_display_ideas oldIdeas response).2 ≠ GenOutcome.success ∧
    (jsonLoads (cleanResponse response) = none →
      final_paper_parse response = PaperOutcome.parseError) := by
  cases hj : jsonLoads (cleanResponse response) with
  | none =>
    refine ⟨?_, ?_, ?_⟩
    · simp [generate_and_display_ideas, hj]
    · simp [generate_and_display_ideas, hj]
    · intro _
      simp [final_paper_parse, hj]
  | some j =>
    have hc := h j hj
    refine ⟨?_, ?_, ?_⟩
    · cases hcc : pyContains j ("ideas".data) with
      | none => simp [generate_and_display_ideas, hj, hcc]
      | some b =>
        cases b with
        | false => simp [generate_and_display_ideas, hj, hcc]
        | true => exact absurd hcc hc
    · cases hcc : pyContains j ("ideas".data) with
      | none => simp [generate_and_display_ideas, hj, hcc]
      | some b =>
        cases b with
        | false => simp [generate_and_display_ideas, hj, hcc]
        | true => exact absurd hcc hc
    · intro hn
      cases hn

/-- Witness for C2 at a concrete malformed response. -/
theorem parse_failure_keeps_ideas_witness :
    (generate_and_display_ideas (Json.arr []) ("oops".data)).1 = Json.arr [] ∧
    (generate_and_display_ideas (Json.arr []) ("oops".data)).2 ≠ GenOutcome.success ∧
    (jsonLoads (cleanResponse ("oops".data)) = none →
      final_paper_parse ("oops".data) = PaperOutcome.parseError) := by
  have hnone : jsonLoads (cleanResponse ("oops".data)) = none := rfl
  exact parse_failure_keeps_ideas (Json.arr []) ("oops".data)
    (by intro j hj; rw [hnone] at hj; cases hj)

/-- C4 counterexample: a chat turn on the explore page whose completion
call fails leaves `chat_history` one entry longer than before the user
submitted the message — not identical to it: the user message was already
appended before the completion call. -/
theorem explore_failed_completion_keeps_user_message :
    explore_turn [] ("hi".data) (Except.ok ("ctx".data)) (fun _ => Except.error ())
      = ([⟨"user".data, "hi".data⟩], TurnResult.completionFailed) ∧
    ([⟨"user".data, "hi".data⟩] : List ChatMsg) ≠ [] :=
  ⟨rfl, by simp⟩

/-- C4 (amended): when the completion backend call of an explore-page chat
turn fails, the error propagates uncaught (surfaced by the framework) and
`chat_history` ends as the prior history with exactly the user message
appended — one entry longer, with no assistant entry. -/
theorem explore_failed_completion_appends_user_only (history : List ChatMsg)
    (prompt ctx : List Char) (compl : List Char → Except Unit (List Char))
    (h : compl (explore_full_prompt ctx prompt) = Except.error ()) :
    explore_turn history prompt (Except.ok ctx) compl
      = (history ++ [⟨"user".data, prompt⟩], TurnResult.completionFailed) ∧
    (explore_turn history prompt (Except.ok ctx) compl).1.length
      = history.length + 1 := by
  constructor
  · simp [explore_turn, h]
  · simp [explore_turn, h]

/-- Witness for C4 at a concrete failing completion. -/
theorem explore_failed_completion_appends_user_only_witness :
    explore_turn [] ("hi".data) (Except.ok ("c".data)) (fun _ => Except.error ())
      = ([⟨"user".data, "hi".data⟩], TurnResult.completionFailed) ∧
    (explore_turn [] ("hi".data) (Except.ok ("c".data))
      (fun _ => Except.error ())).1.length = List.length ([] : List ChatMsg) + 1 := by
  have h := explore_failed_completion_appends_user_only [] ("hi".data) ("c".data)
    (fun _ => Except.error ()) rfl
  simpa using h

/-- C5: after one user message is submitted on the explore page and both
backend calls return, `chat_history` has grown by exactly two entries: the
user message with the submitted text, then the assistant message, in that
order. -/
theorem explore_turn_appends_user_then_assistant (history : List ChatMsg)
    (prompt ctx raw : List Char) (compl : List Char → Except Unit (List Char))
    (h : compl (explore_full_prompt ctx prompt) = Except.ok raw) :
    explore_turn history prompt (Except.ok ctx) compl
      = (history ++ [⟨"user".data, prompt⟩, ⟨"assistant".data, complete_post raw⟩],
         TurnResult.ok) ∧
    (explore_turn history prompt (Except.ok ctx) compl).1.length
      = history.length + 2 := by
  constructor
  · simp [explore_turn, h]
  · simp [explore_turn, h]

/-- Witness for C5 at a concrete successful turn. -/
theorem explore_turn_appends_user_then_assistant_witness :
    explore_turn [] ("hi".data) (Except.ok ("c".data)) (fun _ => Except.ok ("fine".data))
      = ([⟨"user".data, "hi".data⟩,
          ⟨"assistant".data, complete_post ("fine".data)⟩], TurnResult.ok) ∧
    (explore_turn [] ("hi".data) (Except.ok ("c".data))
      (fun _ => Except.ok ("fine".data))).1.length = List.length ([] : List ChatMsg) + 2 := by
  have h := explore_turn_appends_user_then_assistant [] ("hi".data) ("c".data)
    ("fine".data) (fun _ => Except.ok ("fine".data)) rfl
  simpa using h

/-- C8 counterexample: after the "Clear conversation" action on a state
holding a previously selected idea, `selected_idea` still holds that idea
rather than its initial default `None`. -/
theorem clear_conversation_keeps_selected_idea :
    (clear_conversation
      ⟨some ("x".data), some true, some ("explore".data), some [("d".data)],
       some (Json.arr []), some [], some [], some ("p".data),
       some (some (Json.obj [("title".data, Json.str ("A".data))])),
       some none, some false⟩).selected_idea
      = some (some (Json.obj [("title".data, Json.str ("A".data))])) ∧
    some (some (Json.obj [("title".data, Json.str ("A".data))]))
      ≠ (some none : Option (Option Json)) :=
  ⟨rfl, by simp⟩

/-- C8 (amended): the "Clear conversation" action resets `messages`,
`ideas`, `chat_history` to empty, `domain_inputs` to a single empty entry,
and the page to home — and leaves every other session key
(`specifications`, `generate_new`, `previous_prompt`, `selected_idea`,
`final_idea`, `navigating_to_final`) unchanged rather than restoring its
default. -/
theorem clear_conversation_resets_listed_fields (s : SessionState) :
    (clear_conversation s).messages = some [] ∧
    (clear_conversation s).ideas = some (Json.arr []) ∧
    (clear_conversation s).domain_inputs = some [[]] ∧
    (clear_conversation s).chat_history = some [] ∧
    (clear_conversation s).page = some ("home".data) ∧
    { clear_conversation s with
      messages := s.messages
      ideas := s.ideas
      domain_inputs := s.domain_inputs
      chat_history := s.chat_history
      page := s.page } = s :=
  ⟨rfl, rfl, rfl, rfl, rfl, rfl⟩

/-- C9: the generation branch of `get_idea_page` runs exactly when the
"Generate Ideas" button was pressed or the one-shot `generate_new` flag is
false; so with valid inputs and no button press, generation happens
whenever `generate_new` is false, and is suppressed only while it is
true. -/
theorem get_idea_trigger_condition (button g : Bool)
    (di : List (List Char)) (sp : List Char) :
    (get_idea_generation button g di sp ≠ GetIdeaAction.noAction
      ↔ (button || !g) = true) ∧
    (button = false → g = true →
      get_idea_generation button g di sp = GetIdeaAction.noAction) ∧
    (button = false → g = false →
      di.any (fun d => !d.isEmpty) = true → sp.isEmpty = false →
      get_idea_generation button g di sp = GetIdeaAction.generate) := by
  refine ⟨?_, ?_, ?_⟩
  · cases button <;> cases g <;>
      by_cases hin : (di.any (fun d => !d.isEmpty) && !sp.isEmpty) = true <;>
      simp [get_idea_generation, hin]
  · intro hb hg
    subst hb; subst hg
    simp [get_idea_generation]
  · intro hb hg hd hs
    subst hb; subst hg
    simp [get_idea_generation, hd, hs]

/-- Witness for C9 at concrete flag values and valid inputs. -/
theorem get_idea_trigger_condition_witness :
    get_idea_generation false false [("a".data)] ("s".data) = GetIdeaAction.generate ∧
    get_idea_generation false true [("a".data)] ("s".data) = GetIdeaAction.noAction :=
  ⟨(get_idea_trigger_condition false false [("a".data)] ("s".data)).2.2 rfl rfl
      (by decide) (by decide),
   (get_idea_trigger_condition false true [("a".data)] ("s".data)).2.1 rfl rfl⟩

/-- C10: the "Analyze Now" action clears `selected_idea` (so the review
page entered from home never pre-fills) and navigates to `review_idea`,
touching nothing else; "Get Started" and "Explore" mutate no session field
other than `page`. -/
theorem home_page_transitions (s : SessionState) :
    (home_page s HomeAction.analyzeNow).selected_idea = some none ∧
    (home_page s HomeAction.analyzeNow).page = some ("review_idea".data) ∧
    review_prefill_gate (home_page s HomeAction.analyzeNow) = false ∧
    { home_page s HomeAction.analyzeNow with
      page := s.page
      selected_idea := s.selected_idea } = s ∧
    (home_page s HomeAction.getStarted).page = some ("get_idea".data) ∧
    { home_page s HomeAction.getStarted with page := s.page } = s ∧
    (home_page s HomeAction.explore).page = some ("explore".data) ∧
    { home_page s HomeAction.explore with page := s.page } = s :=
  ⟨rfl, rfl, rfl, rfl, rfl, rfl, rfl, rfl⟩

/-- C1: the request parameters sent to the Cortex search stored procedure
never depend on the `filter` argument (nor on `columns`); at the exact
call shape used throughout app.py the request carries only the query, the
service name and the chunk count — the caller filter is dropped. -/
theorem cortex_search_request_ignores_filter :
    (∀ (query service : List Char) (n : Nat) (cols : List (List Char)) (f g : Json),
      cortex_search_request query service n cols f
        = cortex_search_request query service n cols g) ∧
    objKeys (cortex_search_request ("AI healthcare".data) ("svc".data) 5
        [("chunk".data), ("file_url".data), ("relative_path".data)] english_filter)
      = [("query".data), ("service_name".data), ("num_chunks".data)] :=
  ⟨fun _ _ _ _ _ _ => rfl, rfl⟩
